import Mathlib

/-!
Shallow embedding of the e-commerce Flask/SQLAlchemy API in `src/app.py`.

The persistent relational state (tables `users`, `products`, `orders`,
`order_product` plus the autoincrement counters) is modelled as `DBState`.
Each HTTP endpoint becomes a pure Lean function from the current state and
the (already-routed) request data to an endpoint-specific result type that
records the HTTP status, the response record where one is returned, and the
state after the operation (commits that fail roll back, so the returned
state is the incoming one on every error path).

Commit failures are modelled exactly where a database constraint of the
declared schema rejects the write: the unique `email` column of `users`,
the composite primary key of `order_product`, and the foreign key from
`orders.user_id` into `users`.  A Python exception that no handler catches
(e.g. `KeyError`, `AttributeError`) is a distinguished constructor; Flask
turns such an exception into an HTTP 500 response, which is what the
`status` projection assigns to it.
-/

namespace ECommApp

/-- Row of the `users` table (`class User`): surrogate integer id,
`name`, `address`, unique `email`. -/
structure UserRec where
  id : Nat
  name : String
  address : String
  email : String
deriving Repr, DecidableEq

/-- Row of the `products` table (`class Product`).  The `Numeric(10,2)`
price is modelled as an integer count of hundredths. -/
structure ProductRec where
  id : Nat
  product_name : String
  price : Int
deriving Repr, DecidableEq

/-- Row of the `orders` table (`class Order`): id, server-assigned
`order_date` (timestamp as a natural number), `user_id` foreign key. -/
structure OrderRec where
  id : Nat
  order_date : Nat
  user_id : Nat
deriving Repr, DecidableEq

/-- Row of the `order_product` association table (`class Order_Product`):
composite primary key (order_id, product_id). -/
structure OrderProduct where
  order_id : Nat
  product_id : Nat
deriving Repr, DecidableEq

/-- The whole relational store plus the autoincrement counters of the three
entity tables. -/
structure DBState where
  users : List UserRec
  products : List ProductRec
  orders : List OrderRec
  order_product : List OrderProduct
  next_user_id : Nat
  next_product_id : Nat
  next_order_id : Nat
deriving Repr, DecidableEq

/-- The empty store with all autoincrement counters at 1. -/
def DBState.empty : DBState := ⟨[], [], [], [], 1, 1, 1⟩

/-! ## Marshmallow schemas (validation layer) -/

/-- Abstraction of marshmallow `fields.Email`'s grammar check: the string
contains an `@` that is neither its first nor its last character.  (The
real validator is stricter; every concrete email used below passes both.) -/
def isValidEmail (s : String) : Bool :=
  let cs := s.toList
  cs.contains '@' && cs.head? != some '@' && cs.getLast? != some '@'

/-- `validate.Length(min=1, max=100)` on a required string field. -/
def validName (s : String) : Bool :=
  1 ≤ s.length && s.length ≤ 100

/-- `validate.Length(max=200)` on the optional `address` field. -/
def validAddress (s : String) : Bool :=
  s.length ≤ 200

/-- `fields.Email(required=True, validate=validate.Length(max=100))`. -/
def validEmailField (s : String) : Bool :=
  isValidEmail s && s.length ≤ 100

/-- JSON request body for the user endpoints: each field is present or
absent (type errors of present fields are folded into the validators). -/
structure UserPayload where
  name : Option String
  address : Option String
  email : Option String
deriving Repr, DecidableEq

/-- The mapping produced by a successful `user_schema.load`: `name` and
`email` are required so always present; `address` is optional and the key
is simply absent from the loaded mapping when the payload omitted it. -/
structure LoadedUser where
  name : String
  address : Option String
  email : String
deriving Repr, DecidableEq

/-- `user_schema.load`: `none` models `ValidationError` (any missing
required field or failed validator), `some` the loaded mapping. -/
def user_schema_load (p : UserPayload) : Option LoadedUser :=
  match p.name, p.email with
  | some n, some e =>
      if validName n && validEmailField e &&
         (match p.address with
          | some a => validAddress a
          | none => true) then
        some ⟨n, p.address, e⟩
      else
        none
  | _, _ => none

/-- JSON request body for the product endpoints. -/
structure ProductPayload where
  product_name : Option String
  price : Option Int
deriving Repr, DecidableEq

/-- The mapping produced by a successful `product_schema.load`; both fields
are required. -/
structure LoadedProduct where
  product_name : String
  price : Int
deriving Repr, DecidableEq

/-- `product_schema.load`: name 1–100 chars, price in `Range(min=0)`. -/
def product_schema_load (p : ProductPayload) : Option LoadedProduct :=
  match p.product_name, p.price with
  | some n, some pr =>
      if validName n && 0 ≤ pr then some ⟨n, pr⟩ else none
  | _, _ => none

/-- A JSON value supplied for the `user_id` field of an order payload:
either a number (accepted by `fields.Int`) or some non-numeric value
(rejected by it). -/
inductive JsonIntField where
  | num (n : Int)
  | nonNumeric
deriving Repr, DecidableEq

/-- JSON request body for `POST /orders`: `user_id` required `fields.Int`;
`id`, `order_date` and `products` are dump-only so ignored on load. -/
structure OrderPayload where
  user_id : Option JsonIntField
deriving Repr, DecidableEq

/-- `order_schema.load`: `none` models `ValidationError` (missing or
non-numeric `user_id`). -/
def order_schema_load (p : OrderPayload) : Option Int :=
  match p.user_id with
  | some (.num n) => some n
  | _ => none

/-! ## Point lookups (`db.session.get` / `select ... where`) -/

/-- `db.session.get(User, user_id)`. -/
def findUser (st : DBState) (uid : Nat) : Option UserRec :=
  st.users.find? (fun u => u.id == uid)

/-- `db.session.get(Product, id)`. -/
def findProduct (st : DBState) (pid : Nat) : Option ProductRec :=
  st.products.find? (fun p => p.id == pid)

/-- `db.session.get(Order, order_id)`. -/
def findOrder (st : DBState) (oid : Nat) : Option OrderRec :=
  st.orders.find? (fun o => o.id == oid)

/-- Whether some stored user already has the given email (the unique
constraint on `users.email`). -/
def emailTaken (st : DBState) (e : String) : Bool :=
  st.users.any (fun u => u.email == e)

/-- Whether the association row (order_id, product_id) is present. -/
def assocMember (st : DBState) (oid pid : Nat) : Bool :=
  st.order_product.any (fun ap => ap.order_id == oid && ap.product_id == pid)

/-! ## User endpoints -/

/-- Result of `GET /users` (`get_users`). -/
inductive GetUsersResult where
  | empty404
  | ok (us : List UserRec)
deriving Repr, DecidableEq

def GetUsersResult.status : GetUsersResult → Nat
  | .empty404 => 404
  | .ok _ => 200

/-- `GET /users`: full scan; the empty result set is reported as 404. -/
def get_users (st : DBState) : GetUsersResult :=
  if st.users.isEmpty then .empty404 else .ok st.users

/-- Result of `GET /users/<user_id>` (`get_user`). -/
inductive GetUserResult where
  | notFound
  | ok (u : UserRec)
deriving Repr, DecidableEq

def GetUserResult.status : GetUserResult → Nat
  | .notFound => 404
  | .ok _ => 200

/-- `GET /users/<user_id>`: point lookup, 404 when absent. -/
def get_user (st : DBState) (uid : Nat) : GetUserResult :=
  match findUser st uid with
  | none => .notFound
  | some u => .ok u

/-- Result of `POST /users` (`create_user`).  `keyErrorAddress` is the
uncaught `KeyError` raised by `user_data['address']` when the optional
`address` key is absent from the loaded mapping. -/
inductive CreateUserResult where
  | unprocessable (st : DBState)
  | keyErrorAddress (st : DBState)
  | commitError (st : DBState)
  | created (u : UserRec) (st : DBState)
deriving Repr, DecidableEq

def CreateUserResult.status : CreateUserResult → Nat
  | .unprocessable _ => 422
  | .keyErrorAddress _ => 500
  | .commitError _ => 500
  | .created _ _ => 201

def CreateUserResult.state : CreateUserResult → DBState
  | .unprocessable st => st
  | .keyErrorAddress st => st
  | .commitError st => st
  | .created _ st => st

/-- `POST /users`: validate, then build the row from `user_data['name']`,
`user_data['address']`, `user_data['email']`, add and commit.  The commit
raises when the unique `email` constraint is violated; the handler catches
every `Exception`, rolls back and returns 500. -/
def create_user (st : DBState) (p : UserPayload) : CreateUserResult :=
  match user_schema_load p with
  | none => .unprocessable st
  | some ud =>
    match ud.address with
    | none => .keyErrorAddress st
    | some addr =>
      if emailTaken st ud.email then
        .commitError st
      else
        let u : UserRec := ⟨st.next_user_id, ud.name, addr, ud.email⟩
        .created u { st with
          users := st.users ++ [u],
          next_user_id := st.next_user_id + 1 }

/-- Result of `PUT /users/<user_id>` (`update_user`). -/
inductive UpdateUserResult where
  | notFound (st : DBState)
  | unprocessable (st : DBState)
  | keyErrorAddress (st : DBState)
  | commitError (st : DBState)
  | ok (u : UserRec) (st : DBState)
deriving Repr, DecidableEq

def UpdateUserResult.status : UpdateUserResult → Nat
  | .notFound _ => 404
  | .unprocessable _ => 422
  | .keyErrorAddress _ => 500
  | .commitError _ => 500
  | .ok _ _ => 200

def UpdateUserResult.state : UpdateUserResult → DBState
  | .notFound st => st
  | .unprocessable st => st
  | .keyErrorAddress st => st
  | .commitError st => st
  | .ok _ st => st

/-- `PUT /users/<user_id>`: lookup first (404 when absent), then validate,
then overwrite `name`, `address`, `email` and commit; a unique-email
violation against a different stored user makes the commit raise, which
rolls back and returns 500. -/
def update_user (st : DBState) (uid : Nat) (p : UserPayload) : UpdateUserResult :=
  match findUser st uid with
  | none => .notFound st
  | some user =>
    match user_schema_load p with
    | none => .unprocessable st
    | some ud =>
      match ud.address with
      | none => .keyErrorAddress st
      | some addr =>
        if st.users.any (fun v => !(v.id == user.id) && v.email == ud.email) then
          .commitError st
        else
          let u : UserRec := ⟨user.id, ud.name, addr, ud.email⟩
          .ok u { st with
            users := st.users.map (fun v => if v.id == uid then u else v) }

/-- Result of `DELETE /users/<user_id>` (`delete_user`). -/
inductive DeleteUserResult where
  | notFound (st : DBState)
  | commitError (st : DBState)
  | ok (st : DBState)
deriving Repr, DecidableEq

def DeleteUserResult.status : DeleteUserResult → Nat
  | .notFound _ => 404
  | .commitError _ => 500
  | .ok _ => 200

def DeleteUserResult.state : DeleteUserResult → DBState
  | .notFound st => st
  | .commitError st => st
  | .ok st => st

/-- Whether some order references the user (the `orders.user_id` foreign
key, which makes the delete's commit raise). -/
def userHasOrders (st : DBState) (uid : Nat) : Bool :=
  st.orders.any (fun o => o.user_id == uid)

/-- `DELETE /users/<user_id>`: lookup (404 when absent), delete, commit;
the foreign key from `orders` rejects the delete of a referenced user, the
handler rolls back and returns 500. -/
def delete_user (st : DBState) (uid : Nat) : DeleteUserResult :=
  match findUser st uid with
  | none => .notFound st
  | some _ =>
    if userHasOrders st uid then
      .commitError st
    else
      .ok { st with users := st.users.filter (fun u => !(u.id == uid)) }

/-! ## Product endpoints (those the claims need) -/

/-- Result of `PUT /products/<id>` (`update_product`).  No declared
constraint can reject this commit, so no commit-failure constructor. -/
inductive UpdateProductResult where
  | notFound (st : DBState)
  | unprocessable (st : DBState)
  | ok (p : ProductRec) (st : DBState)
deriving Repr, DecidableEq

def UpdateProductResult.status : UpdateProductResult → Nat
  | .notFound _ => 404
  | .unprocessable _ => 422
  | .ok _ _ => 200

def UpdateProductResult.state : UpdateProductResult → DBState
  | .notFound st => st
  | .unprocessable st => st
  | .ok _ st => st

/-- `PUT /products/<id>`: lookup first (404 when absent), then validate,
then overwrite `product_name` and `price` and commit. -/
def update_product (st : DBState) (pid : Nat) (p : ProductPayload) : UpdateProductResult :=
  match findProduct st pid with
  | none => .notFound st
  | some product =>
    match product_schema_load p with
    | none => .unprocessable st
    | some pd =>
      let p' : ProductRec := ⟨product.id, pd.product_name, pd.price⟩
      .ok p' { st with
        products := st.products.map (fun v => if v.id == pid then p' else v) }

/-! ## Order endpoints -/

/-- Result of `POST /orders` (`create_order`). -/
inductive CreateOrderResult where
  | unprocessable (st : DBState)
  | userNotFound (st : DBState)
  | created (o : OrderRec) (st : DBState)
deriving Repr, DecidableEq

def CreateOrderResult.status : CreateOrderResult → Nat
  | .unprocessable _ => 422
  | .userNotFound _ => 404
  | .created _ _ => 201

def CreateOrderResult.state : CreateOrderResult → DBState
  | .unprocessable st => st
  | .userNotFound st => st
  | .created _ st => st

/-- `POST /orders`: `order_schema.load` first (422 on failure), then the
referenced user is looked up (404 when absent), then the order is inserted
with a server-assigned id and `order_date` (`now`). -/
def create_order (st : DBState) (p : OrderPayload) (now : Nat) : CreateOrderResult :=
  match order_schema_load p with
  | none => .unprocessable st
  | some uid =>
    match st.users.find? (fun u => (u.id : Int) == uid) with
    | none => .userNotFound st
    | some user =>
      let o : OrderRec := ⟨st.next_order_id, now, user.id⟩
      .created o { st with
        orders := st.orders ++ [o],
        next_order_id := st.next_order_id + 1 }

/-- Result of `PUT /orders/<order_id>/add_product/<product_id>`
(`add_product_to_order`).  `conflict` is the `IntegrityError` branch: the
composite primary key of `order_product` rejects the duplicate row, the
handler rolls back and returns 409. -/
inductive AddProductResult where
  | orderNotFound (st : DBState)
  | productNotFound (st : DBState)
  | conflict (st : DBState)
  | added (st : DBState)
deriving Repr, DecidableEq

def AddProductResult.status : AddProductResult → Nat
  | .orderNotFound _ => 404
  | .productNotFound _ => 404
  | .conflict _ => 409
  | .added _ => 201

def AddProductResult.state : AddProductResult → DBState
  | .orderNotFound st => st
  | .productNotFound st => st
  | .conflict st => st
  | .added st => st

/-- `PUT /orders/<order_id>/add_product/<product_id>`: order lookup (404),
product lookup (404), then insert the association row and commit, catching
`IntegrityError` (duplicate composite key) as 409. -/
def add_product_to_order (st : DBState) (oid pid : Nat) : AddProductResult :=
  match findOrder st oid with
  | none => .orderNotFound st
  | some _ =>
    match findProduct st pid with
    | none => .productNotFound st
    | some _ =>
      if assocMember st oid pid then
        .conflict st
      else
        .added { st with order_product := st.order_product ++ [⟨oid, pid⟩] }

/-- Result of `DELETE /orders/<order_id>/remove_product/<product_id>`
(`remove_product_from_order`). -/
inductive RemoveProductResult where
  | notFound (st : DBState)
  | ok (st : DBState)
deriving Repr, DecidableEq

def RemoveProductResult.status : RemoveProductResult → Nat
  | .notFound _ => 404
  | .ok _ => 200

def RemoveProductResult.state : RemoveProductResult → DBState
  | .notFound st => st
  | .ok st => st

/-- `DELETE /orders/<order_id>/remove_product/<product_id>`: select the
association row by both keys (404 when absent), delete it and commit. -/
def remove_product_from_order (st : DBState) (oid pid : Nat) : RemoveProductResult :=
  if assocMember st oid pid then
    .ok { st with
      order_product :=
        st.order_product.filter (fun ap => !(ap.order_id == oid && ap.product_id == pid)) }
  else
    .notFound st

/-- Result of `GET /orders/user/<user_id>` (`get_orders_by_user`).
`attributeError` is the uncaught `AttributeError` raised by
`db.session.get(User, user_id).orders` when the lookup returns `None`;
Flask reports it as HTTP 500. -/
inductive OrdersByUserResult where
  | attributeError
  | empty404
  | ok (os : List OrderRec)
deriving Repr, DecidableEq

def OrdersByUserResult.status : OrdersByUserResult → Nat
  | .attributeError => 500
  | .empty404 => 404
  | .ok _ => 200

/-- `GET /orders/user/<user_id>`: dereferences `.orders` on the lookup
result without a `None` check; an existing user's empty order list is
reported as 404. -/
def get_orders_by_user (st : DBState) (uid : Nat) : OrdersByUserResult :=
  match findUser st uid with
  | none => .attributeError
  | some u =>
    let os := st.orders.filter (fun o => o.user_id == u.id)
    if os.isEmpty then .empty404 else .ok os

/-- Result of `GET /orders/<order_id>/products` (`get_products_by_order`). -/
inductive ProductsByOrderResult where
  | orderNotFound
  | empty404
  | ok (ps : List ProductRec)
deriving Repr, DecidableEq

def ProductsByOrderResult.status : ProductsByOrderResult → Nat
  | .orderNotFound => 404
  | .empty404 => 404
  | .ok _ => 200

/-- `GET /orders/<order_id>/products`: order lookup (404 when absent); the
order's associated product set, 404 when it is empty. -/
def get_products_by_order (st : DBState) (oid : Nat) : ProductsByOrderResult :=
  match findOrder st oid with
  | none => .orderNotFound
  | some _ =>
    let ps := st.products.filter (fun p => assocMember st oid p.id)
    if ps.isEmpty then .empty404 else .ok ps

end ECommApp

namespace ECommApp

/-! ## Concrete sample data used by counterexamples and witnesses -/

/-- The §8 example payload with an address supplied:
name "A", email "a@x.com". -/
def payloadA : UserPayload := ⟨some "A", some "addr A", some "a@x.com"⟩

/-- A second valid payload carrying the same email as `payloadA`. -/
def payloadB : UserPayload := ⟨some "B", some "addr B", some "a@x.com"⟩

/-- The literal §8 example payload: name and email only, address omitted. -/
def payloadNoAddr : UserPayload := ⟨some "A", none, some "a@x.com"⟩

/-- The store after creating `payloadA` in the empty store. -/
def stA : DBState := (create_user DBState.empty payloadA).state

/-- A store with one user, one product, one order owned by the user, and
no association rows. -/
def stOP : DBState :=
  ⟨[⟨1, "A", "addr A", "a@x.com"⟩], [⟨1, "Widget", 100⟩], [⟨1, 10, 1⟩], [], 2, 2, 2⟩

/-- A store with two users, one order owned by the first user only, no
products and no association rows. -/
def stW : DBState :=
  ⟨[⟨1, "A", "addr A", "a@x.com"⟩, ⟨2, "B", "addr B", "b@x.com"⟩], [], [⟨1, 10, 1⟩], [],
   3, 1, 2⟩

/-! ## Helper lemma -/

/-- Replacing exactly the rows matching a key in a list leaves the
replacement as the row that a search for that key finds, provided the
search succeeded before and the replacement matches the key. -/
theorem find?_map_replace (l : List UserRec) (uid : Nat) (u w : UserRec)
    (h : l.find? (fun v => v.id == uid) = some u) (hw : (w.id == uid) = true) :
    (l.map (fun v => if v.id == uid then w else v)).find? (fun v => v.id == uid) =
      some w := by
  induction l with
  | nil => simp at h
  | cons a t ih =>
    by_cases ha : (a.id == uid) = true
    · simp only [List.map_cons, if_pos ha]
      exact List.find?_cons_of_pos _ hw
    · simp only [List.map_cons, if_neg ha]
      rw [@List.find?_cons_of_neg _ (fun v => v.id == uid) a t ha] at h
      rw [@List.find?_cons_of_neg _ (fun v => v.id == uid) a
        (t.map fun v => if v.id == uid then w else v) ha]
      exact ih h

end ECommApp

namespace ECommApp

/-! ## Claim theorems -/

/-- C1 (counterexample): the claim predicts HTTP 409 on the second,
duplicate-email create, but on the §8 scenario (user "a@x.com" already
stored, `payloadB` a valid payload with the same email) `create_user`
answers 500: the commit's `IntegrityError` is caught by the generic
`except Exception` handler, not mapped to a conflict. -/
theorem C1_counterexample :
    user_schema_load payloadB = some ⟨"B", some "addr B", "a@x.com"⟩ ∧
    emailTaken stA "a@x.com" = true ∧
    (create_user stA payloadB).status = 500 ∧
    ¬((create_user stA payloadB).status = 409) := by decide

/-- C1 (amended): creating a second user whose valid payload carries an
email already stored yields HTTP 500 on the second create (the commit
fails and is rolled back, leaving the store unchanged), and the first
user remains readable by id afterward. -/
theorem C1_dup_email_500 (st : DBState) (uid : Nat) (u : UserRec)
    (q : UserPayload) (lq : LoadedUser) (a : String)
    (hu : findUser st uid = some u)
    (hload : user_schema_load q = some lq)
    (haddr : lq.address = some a)
    (hemail : lq.email = u.email) :
    create_user st q = .commitError st ∧
    (create_user st q).status = 500 ∧
    get_user (create_user st q).state uid = .ok u := by
  have hmem : u ∈ st.users := List.mem_of_find?_eq_some hu
  have htaken : emailTaken st lq.email = true := by
    simp only [emailTaken, List.any_eq_true]
    exact ⟨u, hmem, by rw [hemail]; exact beq_self_eq_true u.email⟩
  have h1 : create_user st q = .commitError st := by
    simp [create_user, hload, haddr, htaken]
  refine ⟨h1, by rw [h1]; rfl, ?_⟩
  rw [h1]
  simp [CreateUserResult.state, get_user, hu]

/-- C1 (amended), witnessed on the §8 scenario. -/
theorem C1_dup_email_500_witness :
    create_user stA payloadB = .commitError stA ∧
    (create_user stA payloadB).status = 500 ∧
    get_user (create_user stA payloadB).state 1 =
      .ok ⟨1, "A", "addr A", "a@x.com"⟩ :=
  C1_dup_email_500 stA 1 ⟨1, "A", "addr A", "a@x.com"⟩ payloadB
    ⟨"B", some "addr B", "a@x.com"⟩ "addr B" (by decide) (by decide) rfl rfl

/-- C2 (code bug): on the literal §8 example payload (valid name, valid
unused email, optional address omitted) `create_user` raises an uncaught
`KeyError` at `user_data['address']` — reported as HTTP 500, not the
claimed 201 — because the schema makes `address` optional but the handler
reads the key unconditionally. -/
theorem C2_missing_address_keyerror :
    user_schema_load payloadNoAddr = some ⟨"A", none, "a@x.com"⟩ ∧
    emailTaken DBState.empty "a@x.com" = false ∧
    create_user DBState.empty payloadNoAddr = .keyErrorAddress DBState.empty ∧
    ¬((create_user DBState.empty payloadNoAddr).status = 201) := by decide

/-- C3 (code bug): for a user_id matching no stored user,
`get_orders_by_user` dereferences `.orders` on the `None` returned by
`db.session.get` and raises an uncaught `AttributeError` — reported as
HTTP 500 — instead of the claimed 404; shown on the empty store at
user_id 7. -/
theorem C3_missing_user_attributeerror :
    findUser DBState.empty 7 = none ∧
    get_orders_by_user DBState.empty 7 = .attributeError ∧
    ¬((get_orders_by_user DBState.empty 7).status = 404) := by decide

end ECommApp

namespace ECommApp

/-- C4: when order `oid` and product `pid` both exist and no (oid, pid)
association row is stored, the first `add_product_to_order` answers 201,
an immediate second identical call answers 409 (the composite primary key
rejects the duplicate, the handler rolls back), and the final association
set holds exactly one (oid, pid) row. -/
theorem C4_add_product_twice (st : DBState) (oid pid : Nat)
    (o : OrderRec) (p : ProductRec)
    (ho : findOrder st oid = some o) (hp : findProduct st pid = some p)
    (hnot : assocMember st oid pid = false) :
    (add_product_to_order st oid pid).status = 201 ∧
    (add_product_to_order (add_product_to_order st oid pid).state oid pid).status
      = 409 ∧
    ((add_product_to_order (add_product_to_order st oid pid).state oid
        pid).state.order_product.countP
      (fun ap => ap.order_id == oid && ap.product_id == pid)) = 1 := by
  have h1 : add_product_to_order st oid pid =
      .added { st with order_product := st.order_product ++ [⟨oid, pid⟩] } := by
    simp [add_product_to_order, ho, hp, hnot]
  have ho1 : findOrder
      { st with order_product := st.order_product ++ [⟨oid, pid⟩] } oid = some o := ho
  have hp1 : findProduct
      { st with order_product := st.order_product ++ [⟨oid, pid⟩] } pid = some p := hp
  have hm1 : assocMember
      { st with order_product := st.order_product ++ [⟨oid, pid⟩] } oid pid = true := by
    simp [assocMember, List.any_append]
  have h2 : add_product_to_order
      { st with order_product := st.order_product ++ [⟨oid, pid⟩] } oid pid =
      .conflict { st with order_product := st.order_product ++ [⟨oid, pid⟩] } := by
    simp [add_product_to_order, ho1, hp1, hm1]
  have h0 : st.order_product.countP
      (fun ap => ap.order_id == oid && ap.product_id == pid) = 0 := by
    rw [List.countP_eq_zero]
    intro x hx
    exact List.any_eq_false.mp hnot x hx
  refine ⟨by rw [h1]; rfl, ?_, ?_⟩
  · rw [h1]
    simp only [AddProductResult.state]
    rw [h2]
    rfl
  · rw [h1]
    simp only [AddProductResult.state]
    rw [h2]
    simp only [AddProductResult.state]
    simp [List.countP_append, h0, List.countP_cons]

/-- C4, witnessed on a store holding one user, one order, one product and
no associations. -/
theorem C4_add_product_twice_witness :
    (add_product_to_order stOP 1 1).status = 201 ∧
    (add_product_to_order (add_product_to_order stOP 1 1).state 1 1).status = 409 ∧
    ((add_product_to_order (add_product_to_order stOP 1 1).state 1
        1).state.order_product.countP
      (fun ap => ap.order_id == 1 && ap.product_id == 1)) = 1 :=
  C4_add_product_twice stOP 1 1 ⟨1, 10, 1⟩ ⟨1, "Widget", 100⟩
    (by decide) (by decide) (by decide)

/-- C5: every collection read reports an empty result set as 404: listing
users of a store with no users, listing orders of an existing user with no
orders, and listing products of an existing order with no associated
products. -/
theorem C5_empty_collections_404 (st : DBState) (uid oid : Nat) :
    (st.users = [] → (get_users st).status = 404) ∧
    (∀ u, findUser st uid = some u →
      st.orders.filter (fun o => o.user_id == u.id) = [] →
      (get_orders_by_user st uid).status = 404) ∧
    (∀ o, findOrder st oid = some o →
      st.products.filter (fun p => assocMember st oid p.id) = [] →
      (get_products_by_order st oid).status = 404) := by
  refine ⟨?_, ?_, ?_⟩
  · intro h
    simp [get_users, h, GetUsersResult.status]
  · intro u hu hord
    simp [get_orders_by_user, hu, hord, OrdersByUserResult.status]
  · intro o hv hpr
    simp [get_products_by_order, hv, hpr, ProductsByOrderResult.status]

/-- C5, witnessed: the empty store for `GET /users`, a user with no orders
for `GET /orders/user/2`, and an order with no products for
`GET /orders/1/products`. -/
theorem C5_empty_collections_404_witness :
    (get_users DBState.empty).status = 404 ∧
    (get_orders_by_user stW 2).status = 404 ∧
    (get_products_by_order stW 1).status = 404 :=
  ⟨(C5_empty_collections_404 DBState.empty 0 0).1 rfl,
   (C5_empty_collections_404 stW 2 0).2.1 ⟨2, "B", "addr B", "b@x.com"⟩
     (by decide) (by decide),
   (C5_empty_collections_404 stW 0 1).2.2 ⟨1, 10, 1⟩ (by decide) (by decide)⟩

/-- C6: updating a non-existent user id and a non-existent product id both
answer 404 and return the store exactly unchanged, whatever the payloads. -/
theorem C6_update_missing_404 (st : DBState) (uid pid : Nat)
    (pu : UserPayload) (pp : ProductPayload)
    (hu : findUser st uid = none) (hp : findProduct st pid = none) :
    update_user st uid pu = .notFound st ∧
    (update_user st uid pu).status = 404 ∧
    update_product st pid pp = .notFound st ∧
    (update_product st pid pp).status = 404 := by
  have h1 : update_user st uid pu = .notFound st := by
    simp [update_user, hu]
  have h2 : update_product st pid pp = .notFound st := by
    simp [update_product, hp]
  exact ⟨h1, by rw [h1]; rfl, h2, by rw [h2]; rfl⟩

/-- C6, witnessed on the empty store at id 1 for both entities. -/
theorem C6_update_missing_404_witness :
    update_user DBState.empty 1 payloadA = .notFound DBState.empty ∧
    (update_user DBState.empty 1 payloadA).status = 404 ∧
    update_product DBState.empty 1 ⟨some "Widget", some 100⟩ =
      .notFound DBState.empty ∧
    (update_product DBState.empty 1 ⟨some "Widget", some 100⟩).status = 404 :=
  C6_update_missing_404 DBState.empty 1 1 payloadA ⟨some "Widget", some 100⟩
    (by decide) (by decide)

end ECommApp

namespace ECommApp

/-- C7: a successful full update of an existing user (valid payload with
name, address and email; the new email collides with no other stored user,
so the commit succeeds) overwrites exactly the three mutable fields with
the payload values, keeps the id, answers 200 with the updated record, and
the row read back by id afterwards is that updated record. -/
theorem C7_full_replace_update (st : DBState) (uid : Nat) (u : UserRec)
    (p : UserPayload) (lu : LoadedUser) (a : String)
    (hu : findUser st uid = some u)
    (hload : user_schema_load p = some lu)
    (haddr : lu.address = some a)
    (hnoconf : st.users.any
      (fun v => !(v.id == u.id) && v.email == lu.email) = false) :
    update_user st uid p =
      .ok ⟨u.id, lu.name, a, lu.email⟩
        { st with users := st.users.map fun v => if v.id == uid then ⟨u.id, lu.name, a, lu.email⟩ else v } ∧
    (update_user st uid p).status = 200 ∧
    findUser (update_user st uid p).state uid = some ⟨u.id, lu.name, a, lu.email⟩ := by
  have hu' : st.users.find? (fun v => v.id == uid) = some u := hu
  have hid : (u.id == uid) = true :=
    @List.find?_some _ (fun v => v.id == uid) u st.users hu'
  have h1 : update_user st uid p =
      .ok ⟨u.id, lu.name, a, lu.email⟩
        { st with users := st.users.map fun v => if v.id == uid then ⟨u.id, lu.name, a, lu.email⟩ else v } := by
    simp [update_user, hu, hload, haddr, hnoconf]
  have h3 : (st.users.map
      (fun v => if v.id == uid then (⟨u.id, lu.name, a, lu.email⟩ : UserRec) else v)).find?
        (fun v => v.id == uid) = some ⟨u.id, lu.name, a, lu.email⟩ :=
    find?_map_replace st.users uid u ⟨u.id, lu.name, a, lu.email⟩ hu hid
  refine ⟨h1, by rw [h1]; rfl, ?_⟩
  rw [h1]
  exact h3

/-- C7, witnessed: replacing user 1's record wholesale. -/
theorem C7_full_replace_update_witness :
    update_user stOP 1 ⟨some "B", some "new addr", some "b@x.com"⟩ =
      .ok ⟨1, "B", "new addr", "b@x.com"⟩
        { stOP with users := stOP.users.map fun v => if v.id == 1 then ⟨1, "B", "new addr", "b@x.com"⟩ else v } ∧
    (update_user stOP 1 ⟨some "B", some "new addr", some "b@x.com"⟩).status = 200 ∧
    findUser (update_user stOP 1 ⟨some "B", some "new addr", some "b@x.com"⟩).state 1 =
      some ⟨1, "B", "new addr", "b@x.com"⟩ :=
  C7_full_replace_update stOP 1 ⟨1, "A", "addr A", "a@x.com"⟩
    ⟨some "B", some "new addr", some "b@x.com"⟩ ⟨"B", some "new addr", "b@x.com"⟩
    "new addr" (by decide) (by decide) rfl (by decide)

/-- C8: removing an association row that is not stored answers 404 and
returns the store exactly unchanged. -/
theorem C8_remove_missing_assoc (st : DBState) (oid pid : Nat)
    (h : assocMember st oid pid = false) :
    remove_product_from_order st oid pid = .notFound st ∧
    (remove_product_from_order st oid pid).status = 404 := by
  have h1 : remove_product_from_order st oid pid = .notFound st := by
    simp [remove_product_from_order, h]
  exact ⟨h1, by rw [h1]; rfl⟩

/-- C8, witnessed on a store whose association set is empty. -/
theorem C8_remove_missing_assoc_witness :
    remove_product_from_order stOP 1 1 = .notFound stOP ∧
    (remove_product_from_order stOP 1 1).status = 404 :=
  C8_remove_missing_assoc stOP 1 1 (by decide)

/-- C9: `create_order` runs `order_schema.load` before the referenced-user
lookup: a malformed payload always answers 422 with the store unchanged,
and a 404 can only arise for a payload that the schema accepted. -/
theorem C9_validation_before_user_check (st : DBState) (p : OrderPayload)
    (now : Nat) :
    (order_schema_load p = none → create_order st p now = .unprocessable st) ∧
    ((create_order st p now).status = 404 →
      ∃ uid, order_schema_load p = some uid) := by
  refine ⟨?_, ?_⟩
  · intro h
    simp [create_order, h]
  · intro h
    cases hl : order_schema_load p with
    | none =>
      simp [create_order, hl, CreateOrderResult.status] at h
    | some uid => exact ⟨uid, rfl⟩

/-- C9, witnessed: the missing-user_id payload answers 422, and a 404
(empty store, validated payload naming user 1) implies the load
succeeded. -/
theorem C9_validation_before_user_check_witness :
    create_order DBState.empty ⟨none⟩ 0 = .unprocessable DBState.empty ∧
    (∃ uid, order_schema_load ⟨some (.num 1)⟩ = some uid) :=
  ⟨(C9_validation_before_user_check DBState.empty ⟨none⟩ 0).1 rfl,
   (C9_validation_before_user_check DBState.empty ⟨some (.num 1)⟩ 0).2 (by decide)⟩

/-- C10: deleting an existing user whose commit fails — in this schema the
foreign key of an order referencing the user rejects the delete — answers
500 after a rollback: the store is returned unchanged, the user row is
still readable, and no order row is touched. -/
theorem C10_delete_user_rollback (st : DBState) (uid : Nat) (u : UserRec)
    (hu : findUser st uid = some u)
    (href : userHasOrders st uid = true) :
    delete_user st uid = .commitError st ∧
    (delete_user st uid).status = 500 ∧
    findUser (delete_user st uid).state uid = some u ∧
    (delete_user st uid).state.orders = st.orders := by
  have h1 : delete_user st uid = .commitError st := by
    simp [delete_user, hu, href]
  exact ⟨h1, by rw [h1]; rfl, by rw [h1]; exact hu, by rw [h1]; rfl⟩

/-- C10, witnessed: user 1 is referenced by order 1, so the delete rolls
back. -/
theorem C10_delete_user_rollback_witness :
    delete_user stOP 1 = .commitError stOP ∧
    (delete_user stOP 1).status = 500 ∧
    findUser (delete_user stOP 1).state 1 = some ⟨1, "A", "addr A", "a@x.com"⟩ ∧
    (delete_user stOP 1).state.orders = stOP.orders :=
  C10_delete_user_rollback stOP 1 ⟨1, "A", "addr A", "a@x.com"⟩
    (by decide) (by decide)

end ECommApp
